import Mathlib

/-!
Verification of the qcml-logging orchestration layer.

The Python sources are embedded shallowly: severity levels are `Nat`
(the backbone's numeric values), log records are explicit structures,
the mutable root logger is an explicit `LoggerState` threaded through
`log_setup`, and exceptions are surfaced in return types.
-/

namespace QcmlLogging

/-- Numeric severity values of the logging backbone. -/
def DEBUG : Nat := 10

/-- INFO severity. -/
def INFO : Nat := 20

/-- WARNING severity. -/
def WARNING : Nat := 30

/-- ERROR severity. -/
def ERROR : Nat := 40

/-- CRITICAL severity. -/
def CRITICAL : Nat := 50

/-- The exceptions surfacing from `log_setup` and the backbone's
`setLevel`. -/
inductive PyError where
  | valueError (msg : String)
  | typeError (msg : String)
  deriving DecidableEq

/-- The backbone's `BASIC_FORMAT` line layout, the value of the
`logging.BASIC_FORMAT` module attribute and the format `basicConfig`
installs. -/
def BASIC_FORMAT : String := "%(levelname)s:%(name)s:%(message)s"

/-- A value a `getattr(logging, name)` lookup can produce: a numeric
level, a string attribute (`BASIC_FORMAT`), or a non-level object of
another type (`_STYLES`, a dict). -/
inductive LevelValue where
  | int (n : Nat)
  | str (s : String)
  | other (desc : String)
  deriving DecidableEq

/-- The uppercase-named attributes of the backbone `logging` module —
everything a `name.upper()` lookup can reach: the numeric level
attributes, plus the non-level attributes `BASIC_FORMAT` (a string) and
`_STYLES` (a dict). -/
def loggingAttr : String → Option LevelValue
  | "NOTSET" => some (LevelValue.int 0)
  | "DEBUG" => some (LevelValue.int 10)
  | "INFO" => some (LevelValue.int 20)
  | "WARNING" => some (LevelValue.int 30)
  | "WARN" => some (LevelValue.int 30)
  | "ERROR" => some (LevelValue.int 40)
  | "CRITICAL" => some (LevelValue.int 50)
  | "FATAL" => some (LevelValue.int 50)
  | "BASIC_FORMAT" => some (LevelValue.str BASIC_FORMAT)
  | "_STYLES" => some (LevelValue.other "_STYLES")
  | _ => none

/-- The level-valued module attributes alone (the numeric severities a
name can resolve to). -/
def levelAttr (s : String) : Option Nat :=
  match loggingAttr s with
  | some (LevelValue.int n) => some n
  | _ => none

/-- ASCII uppercase of one character. This matches `str.upper` exactly on
ASCII input; Python's full Unicode uppercasing (for example U+0131 to I)
is outside the model, so theorems about severity lookup carry an ASCII
hypothesis. -/
def pyUpperChar : Char → Char
  | 'a' => 'A' | 'b' => 'B' | 'c' => 'C' | 'd' => 'D' | 'e' => 'E'
  | 'f' => 'F' | 'g' => 'G' | 'h' => 'H' | 'i' => 'I' | 'j' => 'J'
  | 'k' => 'K' | 'l' => 'L' | 'm' => 'M' | 'n' => 'N' | 'o' => 'O'
  | 'p' => 'P' | 'q' => 'Q' | 'r' => 'R' | 's' => 'S' | 't' => 'T'
  | 'u' => 'U' | 'v' => 'V' | 'w' => 'W' | 'x' => 'X' | 'y' => 'Y'
  | 'z' => 'Z'
  | c => c

/-- `str.upper`, faithful on ASCII strings. -/
def pyUpper (s : String) : String := String.mk (s.data.map pyUpperChar)

/-- Is this an ASCII character? -/
def isAsciiChar (c : Char) : Bool := c.toNat < 128

/-- Is every character of the string ASCII? -/
def isAsciiStr (s : String) : Bool := s.data.all isAsciiChar

/-- `getattr(logging, s.upper(), fallback)`: the module attribute named by
the uppercased string, or the fallback value when no attribute exists. -/
def getattrLogging (s : String) (fallback : LevelValue) : LevelValue :=
  (loggingAttr (pyUpper s)).getD fallback

/-- The numeric resolution of a severity string when its uppercase names a
level attribute or nothing (the non-level-attribute path raises instead,
see `checkLevel`). -/
def getattrLevel (s : String) (fallback : Nat) : Nat :=
  (levelAttr (pyUpper s)).getD fallback

/-- The backbone's `_nameToLevel` table consulted by `setLevel` on string
arguments. -/
def nameToLevel : String → Option Nat
  | "CRITICAL" => some 50
  | "FATAL" => some 50
  | "ERROR" => some 40
  | "WARN" => some 30
  | "WARNING" => some 30
  | "INFO" => some 20
  | "DEBUG" => some 10
  | "NOTSET" => some 0
  | _ => none

/-- The backbone's `_checkLevel`, run by `Logger.setLevel` and
`Handler.setLevel`: an int is accepted, a string must name a level in
`_nameToLevel` (else ValueError), any other value raises TypeError. -/
def checkLevel : LevelValue → Except PyError Nat
  | LevelValue.int n => Except.ok n
  | LevelValue.str s =>
    match nameToLevel s with
    | some n => Except.ok n
    | none => Except.error (PyError.valueError ("Unknown level: " ++ s))
  | LevelValue.other _ =>
    Except.error (PyError.typeError "Level not an integer or a valid string")

/-- What `setLevel(getattr(logging, s.upper(), logging.ERROR))` does with
a severity string: the resolved numeric level, or the raised error. -/
def resolvedLevel (s : String) : Except PyError Nat :=
  checkLevel (getattrLogging s (LevelValue.int 40))

/-- Python `x or y` on an optional string: `None` and `""` are falsy. -/
def pyOr (x : Option String) (y : String) : String :=
  match x with
  | none => y
  | some s => if s == "" then y else s

/-- A log record (the backbone's `LogRecord`): severity number and name,
raw message, source location, and the mutable extra-attribute map. -/
structure LogRecord where
  name : String
  levelno : Nat
  levelname : String
  msg : String
  filename : String
  lineno : Nat
  asctime : String
  extra : List (String × String)
  deriving DecidableEq

/-- Does `p` begin the character list `l`? -/
def startsChars : List Char → List Char → Bool
  | [], _ => true
  | _ :: _, [] => false
  | p :: ps, h :: hs => p == h && startsChars ps hs

/-- Does `pat` occur contiguously inside `l`? -/
def containsChars (pat : List Char) : List Char → Bool
  | [] => pat.isEmpty
  | h :: hs => startsChars pat (h :: hs) || containsChars pat hs

/-- The Python `in` operator on strings: substring containment. -/
def pyIn (pat hay : String) : Bool := containsChars pat.data hay.data

/-- Left-to-right non-overlapping replacement of `pat` by `rep` on
character lists, structurally recursive on a fuel bound; the fuel never
runs out when it starts at the list length, since every step consumes at
least one character. -/
def substAllFuel (pat rep : List Char) : Nat → List Char → List Char
  | 0, l => l
  | _ + 1, [] => []
  | fuel + 1, h :: t =>
    if 0 < pat.length ∧ startsChars pat (h :: t) = true then
      rep ++ substAllFuel pat rep fuel (List.drop (pat.length - 1) t)
    else
      h :: substAllFuel pat rep fuel t

/-- Left-to-right non-overlapping replacement of `pat` by `rep`
(Python `str.replace` on character lists). -/
def substAll (pat rep l : List Char) : List Char :=
  substAllFuel pat rep l.length l

/-- Python `str.replace` on strings. -/
def strReplace (s pat rep : String) : String :=
  String.mk (substAll pat.data rep.data s.data)

/-- Modelled from the spec: the backbone's percent-style line rendering
(`logging.Formatter.format`), restricted to the directives used by this
repository's format strings; the backbone's default format is
`%(message)s`. -/
def percentFormat (fmt : Option String) (r : LogRecord) : String :=
  let f := fmt.getD "%(message)s"
  let f := strReplace f "%(asctime)s" r.asctime
  let f := strReplace f "%(name)s" r.name
  let f := strReplace f "%(levelname)s" r.levelname
  let f := strReplace f "%(message)s" r.msg
  let f := strReplace f "%(filename)s" r.filename
  strReplace f "%(lineno)d" (toString r.lineno)

/-- The fixed JSON line layout `DEFAULT_JSON_FORMAT = json.dumps({...})`
from formatters.py. -/
def DEFAULT_JSON_FORMAT : String :=
  "\x7b\"time\": \"%(asctime)s\", \"name\": \"%(name)s\", \"level\": \"%(levelname)s\", \"message\": \"%(message)s\", \"filename\": \"%(filename)s\", \"line\": \"%(lineno)d\"\x7d"

/-- A formatter: either a plain backbone formatter over an optional format
string (the JSON formatter is the plain formatter over
`DEFAULT_JSON_FORMAT`), or the repository's `ColoredFormatter`. -/
inductive Formatter where
  | plain (fmt : Option String)
  | colored (fmt : Option String)
  deriving DecidableEq

/-- `ColoredFormatter.COLORS`: severity name to terminal color code. -/
def «ColoredFormatter.COLORS» : String → Option String
  | "DEBUG" => some "\x1b[92m"
  | "INFO" => some "\x1b[94m"
  | "WARNING" => some "\x1b[93m"
  | "ERROR" => some "\x1b[91m"
  | "CRITICAL" => some "\x1b[95m"
  | _ => none

/-- `ColoredFormatter.RESET`: terminal reset code. -/
def RESET : String := "\x1b[0m"

/-- The color-wrapped severity label `COLORS.get(levelname, RESET) +
levelname + RESET` that `ColoredFormatter.format` writes back. -/
def colorWrap (levelname : String) : String :=
  ((«ColoredFormatter.COLORS» levelname).getD RESET) ++ levelname ++ RESET

/-- `ColoredFormatter.format`: wraps the record's `levelname` in its color
code, writes it back onto the record, then renders via the backbone.
Returns the rendered line together with the mutated record. -/
def «ColoredFormatter.format» (fmt : Option String) (record : LogRecord) :
    String × LogRecord :=
  let record2 := { record with levelname := colorWrap record.levelname }
  (percentFormat fmt record2, record2)

/-- Apply a formatter to a record, returning the rendered line and the
record as it stands afterwards (the plain formatter leaves it unchanged). -/
def Formatter.format : Formatter → LogRecord → String × LogRecord
  | Formatter.plain fmt, r => (percentFormat fmt r, r)
  | Formatter.colored fmt, r => «ColoredFormatter.format» fmt r

/-- `setup_formatter` from formatters.py. -/
def setup_formatter (use_json use_color : Bool) (log_format : Option String) :
    Formatter :=
  if use_json then Formatter.plain (some DEFAULT_JSON_FORMAT)
  else if use_color then Formatter.colored log_format
  else Formatter.plain log_format

/-- Kinds of sink this layer ever constructs. -/
inductive HandlerKind where
  | stream
  | rotatingFile (path : String) (maxBytes : Int) (backupCount : Int)
  | slack (token : String) (channel : String)
  deriving DecidableEq

/-- An attached sink: destination kind, severity threshold, and the
formatter bound to it (`none` until `setFormatter` is called). -/
structure Handler where
  kind : HandlerKind
  level : Nat
  formatter : Option Formatter
  deriving DecidableEq

/-- Is this the notification (Slack) sink? -/
def Handler.isSlack (h : Handler) : Bool :=
  match h.kind with
  | HandlerKind.slack _ _ => true
  | _ => false

/-- Is this the console stream sink? -/
def Handler.isStream (h : Handler) : Bool :=
  match h.kind with
  | HandlerKind.stream => true
  | _ => false

/-- Is this the rotating file sink? -/
def Handler.isFile (h : Handler) : Bool :=
  match h.kind with
  | HandlerKind.rotatingFile _ _ _ => true
  | _ => false

/-- Does `s` end with `suf`? -/
def strEndsWith (s suf : String) : Bool :=
  startsChars suf.data.reverse s.data.reverse

/-- `os.path.join` for the one call site in handlers.py. -/
def osPathJoin (a b : String) : String :=
  if strEndsWith a "/" then a ++ b else a ++ "/" ++ b

/-- `setup_handlers` from handlers.py: console sink for terminal/both,
rotating file sink for file/both, each at `level` with `formatter`. -/
def setup_handlers (output logs_path log_filename : String)
    (max_bytes backup_count : Int) (level : Nat) (formatter : Formatter) :
    List Handler :=
  let handlers : List Handler := []
  let handlers :=
    if output == "terminal" || output == "both" then
      handlers ++ [{ kind := HandlerKind.stream, level := level,
                     formatter := some formatter }]
    else handlers
  let handlers :=
    if output == "file" || output == "both" then
      handlers ++ [{ kind := HandlerKind.rotatingFile
                       (osPathJoin logs_path log_filename) max_bytes backup_count,
                     level := level, formatter := some formatter }]
    else handlers
  handlers

/-- Exceptions of the Slack client path. -/
inductive SlackErr where
  | valueError (msg : String)
  | apiError (msg : String)
  deriving DecidableEq

/-- `setup_slack_handler` from handlers.py; the external `auth_test` call
is modelled by the oracle `auth_ok`. The constructed `SlackHandler` calls
`logging.Handler.__init__(level=logging.INFO)`, so its threshold is 20. -/
def setup_slack_handler (slack_credentials : Option (List String))
    (auth_ok : Bool) : Except SlackErr Handler :=
  match slack_credentials with
  | none => Except.error (SlackErr.valueError
      "Slack credentials must be a list containing the token and channel.")
  | some creds =>
    if creds.length ≠ 2 then
      Except.error (SlackErr.valueError
        "Slack credentials must be a list containing the token and channel.")
    else
      let slack_token := creds.headD ""
      let slack_channel := (creds.drop 1).headD ""
      if auth_ok then
        Except.ok { kind := HandlerKind.slack slack_token slack_channel,
                    level := INFO, formatter := none }
      else
        Except.error (SlackErr.apiError "Slack authentication failed")

/-- Filters this layer installs on the root logger. -/
inductive LogFilter where
  | keyword (kws : List String)
  | context (info : List (String × String))
  deriving DecidableEq

/-- `setattr(record, key, value)` on the extra-attribute map:
overwrite in place or append. -/
def setAttr (extra : List (String × String)) (k v : String) :
    List (String × String) :=
  if extra.any (fun p => p.1 == k) then
    extra.map (fun p => if p.1 == k then (k, v) else p)
  else extra ++ [(k, v)]

/-- The keyword filter body installed by `setup_logging_filters`:
`any(keyword in record.msg for keyword in keyword_filters)`. -/
def filter_keywords (keyword_filters : List String) (record : LogRecord) :
    Bool :=
  keyword_filters.any (fun keyword => pyIn keyword record.msg)

/-- `ContextFilter.filter` from context.py: writes every context pair onto
the record and always keeps it. -/
def «ContextFilter.filter» (context_info : List (String × String))
    (record : LogRecord) : Bool × LogRecord :=
  (true, { record with
             extra := context_info.foldl (fun e p => setAttr e p.1 p.2) record.extra })

/-- Run a filter on a record: keep/suppress decision plus the record as it
stands afterwards. -/
def LogFilter.apply : LogFilter → LogRecord → Bool × LogRecord
  | LogFilter.keyword kws, r => (filter_keywords kws r, r)
  | LogFilter.context ci, r => «ContextFilter.filter» ci r

/-- The root logger's configuration state: severity threshold, attached
sinks, attached filters. -/
structure LoggerState where
  level : Nat
  handlers : List Handler
  filters : List LogFilter
  deriving DecidableEq

/-- Python truthiness of an optional list (`None` and `[]` are falsy). -/
def truthyList {α : Type} : Option (List α) → Bool
  | none => false
  | some l => !l.isEmpty

/-- `setup_logging_filters` from logging_setup.py: install the keyword
filter when the keyword list is truthy, then the context filter when the
context mapping is truthy. -/
def setup_logging_filters (logger : LoggerState)
    (keyword_filters : Option (List String))
    (context_info : Option (List (String × String)))  : LoggerState :=
  let logger :=
    if truthyList keyword_filters then
      { logger with filters :=
          logger.filters ++ [LogFilter.keyword (keyword_filters.getD [])] }
    else logger
  let logger :=
    if truthyList context_info then
      { logger with filters :=
          logger.filters ++ [LogFilter.context (context_info.getD [])] }
    else logger
  logger

/-- The console handler `logging.basicConfig()` installs: a stream
handler at level NOTSET with the `BASIC_FORMAT` formatter. -/
def basicConfigHandler : Handler :=
  { kind := HandlerKind.stream, level := 0,
    formatter := some (Formatter.plain (some BASIC_FORMAT)) }

/-- The module-level `logging.warning` call's effect on the root logger
configuration: it first runs `basicConfig()`, which attaches the default
console handler when the root logger has no handlers; dispatching the
warning record itself changes no configuration state. -/
def logging_warning (st : LoggerState) : LoggerState :=
  if st.handlers.isEmpty then
    { st with handlers := st.handlers ++ [basicConfigHandler] }
  else st

/-- The keyword arguments of `log_setup`, with their default values. -/
structure Config where
  level : String := "ERROR"
  hide_logs : Option (List String) := none
  output : String := "both"
  logs_path : String := "logs/"
  log_filename : Option String := none
  max_bytes : Int := 1048576
  backup_count : Int := 3
  terminal_level : Option String := none
  file_level : Option String := none
  log_format : Option String := none
  use_json : Bool := false
  keyword_filters : Option (List String) := none
  use_color : Bool := true
  asynchronous : Bool := true
  add_context : Bool := false
  context_info : Option (List (String × String)) := none
  slack_notify : Bool := false
  slack_credentials : Option (List String) := none
  deriving DecidableEq

/-- Lines 146-183 of logging_setup.py, the straight-line tail of
`log_setup` after validation passed and both `setLevel` values resolved:
set the root level (`n`), clear the handlers, build the formatter, build
and attach the handlers at the resolved terminal level `tn` (the level
resolved from `file_level` is computed by the source but never passed
on), attach the Slack handler when requested and available (its
construction errors are caught and logged), and install the filters.
`slack_available` models whether the slack_sdk import succeeded and
`slack_auth_ok` the external `auth_test` call. -/
def log_setup_attach (cfg : Config) (slack_available slack_auth_ok : Bool)
    (log_filename : Option String) (n tn : Nat) (logger : LoggerState) :
    LoggerState :=
  let logger := { logger with level := n }
  let logger := { logger with handlers := [] }
  let formatter := setup_formatter cfg.use_json cfg.use_color cfg.log_format
  let handlers := setup_handlers cfg.output cfg.logs_path
      (log_filename.getD "") cfg.max_bytes cfg.backup_count tn formatter
  let logger := { logger with handlers := logger.handlers ++ handlers }
  let logger :=
    if cfg.slack_notify && slack_available then
      match setup_slack_handler cfg.slack_credentials slack_auth_ok with
      | Except.ok h =>
        { logger with handlers :=
            logger.handlers ++ [{ h with formatter := some formatter }] }
      | Except.error _ => logger
    else logger
  setup_logging_filters logger cfg.keyword_filters
    (if cfg.add_context then cfg.context_info else none)

/-- `log_setup` from logging_setup.py over the explicit root-logger state.
The result pairs the state of the root logger when the call returns or
raises with the raised exception, if any, following the source's order:
the invalid-output and missing-credentials checks fire first; the
filename default then runs the module-level `logging.warning`, whose
`basicConfig` side effect can attach a console handler to a handler-less
root logger; next the `max_bytes` and `backup_count` checks; then
`logger.setLevel(getattr(logging, level.upper(), ERROR))`, which raises
on a string or dict value (line 143, before the handlers are cleared);
then the handlers are cleared and `setup_handlers` runs, where the first
`setLevel` on the resolved terminal value raises before any handler is
attached; finally the sinks, Slack handler and filters are attached. -/
def log_setup (cfg : Config) (slack_available slack_auth_ok : Bool)
    (logger : LoggerState) : LoggerState × Option PyError :=
  if !(cfg.output == "terminal" || cfg.output == "file" || cfg.output == "both") then
    (logger, some (PyError.valueError
      ("Invalid output value: " ++ cfg.output ++ ". Must be terminal, file, or both.")))
  else if cfg.slack_notify && cfg.slack_credentials.isNone then
    (logger, some (PyError.valueError
      "Slack notifications are enabled, but no Slack credentials were provided."))
  else
    let log_filename :=
      if (cfg.output == "file" || cfg.output == "both") && cfg.log_filename.isNone
      then some "default.log" else cfg.log_filename
    let logger :=
      if (cfg.output == "file" || cfg.output == "both") && cfg.log_filename.isNone
      then logging_warning logger else logger
    if cfg.max_bytes ≤ 0 then
      (logger, some (PyError.valueError "max_bytes must be a positive integer."))
    else if cfg.backup_count < 0 then
      (logger, some (PyError.valueError "backup_count must be a non-negative integer."))
    else
      let terminal_level := pyOr cfg.terminal_level cfg.level
      let file_level := pyOr cfg.file_level cfg.level
      match resolvedLevel cfg.level with
      | Except.error e => (logger, some e)
      | Except.ok n =>
        match resolvedLevel terminal_level with
        | Except.error e => ({ logger with level := n, handlers := [] }, some e)
        | Except.ok tn =>
          let _ := file_level
          (log_setup_attach cfg slack_available slack_auth_ok log_filename
            n tn logger, none)

/-- What a handler observably does with one record. -/
inductive EmitResult where
  | emitted (line : String)
  | skipped
  | sendFailedLogged (errmsg : String)
  | raised (msg : String)
  deriving DecidableEq

/-- The first exception in a dispatch result list, if any. -/
def findRaised : List EmitResult → Option String
  | [] => none
  | EmitResult.raised m :: _ => some m
  | _ :: rest => findRaised rest

/-- `SlackHandler.emit` from handlers.py: format the record (mutating the
shared record) and post it in a code-block wrapper; a `SlackApiError`
from the post is caught and reported through the module-level
`logging.error`, which dispatches a fresh ERROR record through the root
logger — that nested dispatch is the `logging_error` argument, and an
exception escaping it (only `SlackApiError` is caught) escapes `emit`.
`send record = none` models a successful `chat_postMessage`, `some e` a
`SlackApiError` whose response error is `e`. -/
def «SlackHandler.emit» (h : Handler) (send : LogRecord → Option String)
    (logging_error : String → List EmitResult) (record : LogRecord) :
    EmitResult × LogRecord :=
  let fr := (h.formatter.getD (Formatter.plain none)).format record
  match send record with
  | none => (EmitResult.emitted ("```" ++ fr.1 ++ "```"), fr.2)
  | some e =>
    let msg := "Failed to send log to Slack: " ++ e
    match findRaised (logging_error msg) with
    | some m => (EmitResult.raised m, fr.2)
    | none => (EmitResult.sendFailedLogged msg, fr.2)

/-- The record the module-level `logging.error` call inside
`SlackHandler.emit` creates (handlers.py line 65). -/
def errorRecord (msg : String) : LogRecord :=
  { name := "root", levelno := 40, levelname := "ERROR", msg := msg,
    filename := "handlers.py", lineno := 65, asctime := "", extra := [] }

/-- Modelled from the spec: the backbone's handler loop over one record —
each handler whose threshold the record meets formats and emits it in
order; the record object is shared, so formatter mutations persist to
later handlers; an exception escaping a handler aborts the loop. The
Slack handler's emit behavior is supplied as `emitSlack`. -/
def dispatchGo (emitSlack : Handler → LogRecord → EmitResult × LogRecord) :
    List Handler → LogRecord → List EmitResult × LogRecord
  | [], r => ([], r)
  | h :: rest, r =>
    if r.levelno < h.level then
      let pr := dispatchGo emitSlack rest r
      (EmitResult.skipped :: pr.1, pr.2)
    else
      let step : EmitResult × LogRecord :=
        match h.kind with
        | HandlerKind.slack _ _ => emitSlack h r
        | _ =>
          let fr := (h.formatter.getD (Formatter.plain none)).format r
          (EmitResult.emitted fr.1, fr.2)
      match step.1 with
      | EmitResult.raised m => ([EmitResult.raised m], step.2)
      | _ =>
        let pr := dispatchGo emitSlack rest step.2
        (step.1 :: pr.1, pr.2)

/-- Modelled from the spec: dispatch of one record through a handler list
`hs` of a root logger whose handler list is `root` and whose threshold is
`rootLevel`. The `logging.error` call inside a failing Slack emit
re-enters the root logger: when ERROR clears `rootLevel` the error record
is dispatched through `root` — including any Slack handler, so each
nesting level consumes one unit of the recursion budget `fuel`, and an
exhausted budget is the interpreter's RecursionError, which no
`except SlackApiError` clause catches. Root-level filters are not
modelled (none are installed in the scenarios considered). -/
def dispatchFuel (send : LogRecord → Option String) (root : List Handler)
    (rootLevel : Nat) :
    Nat → List Handler → LogRecord → List EmitResult × LogRecord
  | 0, hs, r =>
    dispatchGo
      (fun h rec =>
        «SlackHandler.emit» h send
          (fun _ =>
            [EmitResult.raised "RecursionError: maximum recursion depth exceeded"])
          rec)
      hs r
  | fuel + 1, hs, r =>
    dispatchGo
      (fun h rec =>
        «SlackHandler.emit» h send
          (fun msg =>
            if rootLevel ≤ 40 then
              (dispatchFuel send root rootLevel fuel root (errorRecord msg)).1
            else [])
          rec)
      hs r

/-- The interpreter's default recursion limit. -/
def recursionLimit : Nat := 1000

/-- The backbone's `Logger.callHandlers` on the root logger: the handler
list being dispatched is the root logger's own list (so the
`logging.error` inside a failing Slack emit re-enters it), the root
threshold is the backbone default WARNING, the recursion budget is the
interpreter limit, and a constant send outcome `send_err` is applied to
every post. -/
def callHandlers (hs : List Handler) (send_err : Option String)
    (r : LogRecord) : List EmitResult × LogRecord :=
  dispatchFuel (fun _ => send_err) hs WARNING recursionLimit hs r

/-- The contiguous-substring relation the keyword filter is measured
against. -/
def IsSub (p l : List Char) : Prop := ∃ s t, l = s ++ p ++ t

/-- Number of console stream sinks in a handler list. -/
def countStream (hs : List Handler) : Nat := (hs.filter Handler.isStream).length

/-- Number of rotating file sinks in a handler list. -/
def countFile (hs : List Handler) : Nat := (hs.filter Handler.isFile).length

/-- The validation predicate of `log_setup`: the four checks that can make
it raise. -/
def validConfig (cfg : Config) : Bool :=
  (cfg.output == "terminal" || cfg.output == "file" || cfg.output == "both") &&
  !(cfg.slack_notify && cfg.slack_credentials.isNone) &&
  decide (0 < cfg.max_bytes) &&
  decide (0 ≤ cfg.backup_count)

/-- The log filename after `log_setup` fills in the default. -/
def defaultedFilename (cfg : Config) : Option String :=
  if (cfg.output == "file" || cfg.output == "both") && cfg.log_filename.isNone
  then some "default.log" else cfg.log_filename

/-- The root logger state once the filename-default warning has had its
chance to run: `logging.warning` fires exactly when file output is
requested without a filename. -/
def warnedState (cfg : Config) (st : LoggerState) : LoggerState :=
  if (cfg.output == "file" || cfg.output == "both") && cfg.log_filename.isNone
  then logging_warning st else st

/-- The Slack handler list `log_setup` appends after the console/file
sinks: one handler when notifications are requested, the SDK imported and
construction succeeded, none otherwise. -/
def slackAttachment (cfg : Config) (sa so : Bool) (fm : Formatter) :
    List Handler :=
  if cfg.slack_notify && sa then
    match setup_slack_handler cfg.slack_credentials so with
    | Except.ok h => [{ h with formatter := some fm }]
    | Except.error _ => []
  else []

theorem startsChars_iff (p : List Char) :
    ∀ l, startsChars p l = true ↔ ∃ t, l = p ++ t := by
  induction p with
  | nil =>
    intro l
    simp [startsChars]
  | cons a as ih =>
    intro l
    cases l with
    | nil =>
      simp [startsChars]
    | cons b bs =>
      simp only [startsChars, Bool.and_eq_true, beq_iff_eq, ih, List.cons_append,
        List.cons.injEq]
      constructor
      · rintro ⟨h1, t, h2⟩
        exact ⟨t, h1.symm, h2⟩
      · rintro ⟨t, h1, h2⟩
        exact ⟨h1.symm, t, h2⟩

theorem containsChars_iff (p : List Char) :
    ∀ l, containsChars p l = true ↔ IsSub p l := by
  intro l
  induction l with
  | nil =>
    constructor
    · intro hp
      have hpe : p = [] := by
        simpa [containsChars, List.isEmpty_iff] using hp
      exact ⟨[], [], by simp [hpe]⟩
    · rintro ⟨s, t, hst⟩
      have := hst.symm
      rw [List.append_assoc] at this
      rcases List.append_eq_nil.1 this with ⟨hs, hpt⟩
      rcases List.append_eq_nil.1 hpt with ⟨hp, _⟩
      simp [containsChars, hp]
  | cons c cs ih =>
    simp only [containsChars, Bool.or_eq_true, startsChars_iff p, ih]
    constructor
    · rintro (⟨t, ht⟩ | ⟨s, t, hst⟩)
      · exact ⟨[], t, by simpa using ht⟩
      · exact ⟨c :: s, t, by simp [hst]⟩
    · rintro ⟨s, t, hst⟩
      cases s with
      | nil => exact Or.inl ⟨t, by simpa using hst⟩
      | cons d ds =>
        right
        rw [List.cons_append, List.cons_append] at hst
        injection hst with h1 h2
        exact ⟨ds, t, h2⟩

theorem pyIn_iff (pat hay : String) :
    pyIn pat hay = true ↔ IsSub pat.data hay.data := by
  exact containsChars_iff pat.data hay.data

theorem logging_warning_level (st : LoggerState) :
    (logging_warning st).level = st.level := by
  unfold logging_warning
  split <;> rfl

theorem logging_warning_filters (st : LoggerState) :
    (logging_warning st).filters = st.filters := by
  unfold logging_warning
  split <;> rfl

theorem logging_warning_cases (st : LoggerState) :
    logging_warning st = st ∨
      logging_warning st = { st with handlers := [basicConfigHandler] } := by
  unfold logging_warning
  split
  case isTrue hE =>
    right
    rw [List.isEmpty_iff.1 hE]
    rfl
  case isFalse => exact Or.inl rfl

theorem warnedState_level (cfg : Config) (st : LoggerState) :
    (warnedState cfg st).level = st.level := by
  unfold warnedState
  split
  · exact logging_warning_level st
  · rfl

theorem warnedState_filters (cfg : Config) (st : LoggerState) :
    (warnedState cfg st).filters = st.filters := by
  unfold warnedState
  split
  · exact logging_warning_filters st
  · rfl

theorem warnedState_cases (cfg : Config) (st : LoggerState) :
    warnedState cfg st = st ∨
      warnedState cfg st = { st with handlers := [basicConfigHandler] } := by
  unfold warnedState
  split
  · exact logging_warning_cases st
  · exact Or.inl rfl

theorem log_setup_ok (cfg : Config) (sa so : Bool) (st : LoggerState)
    (n tn : Nat) (h : validConfig cfg = true)
    (hn : resolvedLevel cfg.level = Except.ok n)
    (htm : resolvedLevel (pyOr cfg.terminal_level cfg.level) = Except.ok tn) :
    log_setup cfg sa so st =
      (log_setup_attach cfg sa so (defaultedFilename cfg) n tn
        (warnedState cfg st), none) := by
  unfold validConfig at h
  simp only [Bool.and_eq_true, Bool.not_eq_true', decide_eq_true_eq] at h
  obtain ⟨⟨⟨h1, h2⟩, h3⟩, h4⟩ := h
  have h3' : ¬ (cfg.max_bytes ≤ 0) := by omega
  have h4' : ¬ (cfg.backup_count < 0) := by omega
  unfold log_setup defaultedFilename warnedState
  simp [h1, h2, h3', h4', hn, htm]

theorem log_setup_level_raise (cfg : Config) (sa so : Bool) (st : LoggerState)
    (e : PyError) (h : validConfig cfg = true)
    (hn : resolvedLevel cfg.level = Except.error e) :
    log_setup cfg sa so st = (warnedState cfg st, some e) := by
  unfold validConfig at h
  simp only [Bool.and_eq_true, Bool.not_eq_true', decide_eq_true_eq] at h
  obtain ⟨⟨⟨h1, h2⟩, h3⟩, h4⟩ := h
  have h3' : ¬ (cfg.max_bytes ≤ 0) := by omega
  have h4' : ¬ (cfg.backup_count < 0) := by omega
  unfold log_setup warnedState
  simp [h1, h2, h3', h4', hn]

theorem log_setup_terminal_raise (cfg : Config) (sa so : Bool)
    (st : LoggerState) (n : Nat) (e : PyError) (h : validConfig cfg = true)
    (hn : resolvedLevel cfg.level = Except.ok n)
    (htm : resolvedLevel (pyOr cfg.terminal_level cfg.level) = Except.error e) :
    log_setup cfg sa so st =
      ({ warnedState cfg st with level := n, handlers := [] }, some e) := by
  unfold validConfig at h
  simp only [Bool.and_eq_true, Bool.not_eq_true', decide_eq_true_eq] at h
  obtain ⟨⟨⟨h1, h2⟩, h3⟩, h4⟩ := h
  have h3' : ¬ (cfg.max_bytes ≤ 0) := by omega
  have h4' : ¬ (cfg.backup_count < 0) := by omega
  unfold log_setup warnedState
  simp [h1, h2, h3', h4', hn, htm]

theorem log_setup_invalid (cfg : Config) (sa so : Bool) (st : LoggerState)
    (h : validConfig cfg = false) :
    ∃ e, (log_setup cfg sa so st).2 = some e := by
  unfold log_setup
  by_cases c1 : (cfg.output == "terminal" || cfg.output == "file" || cfg.output == "both") = true
  · by_cases c2 : (cfg.slack_notify && cfg.slack_credentials.isNone) = true
    · simp [c1, c2]
    · by_cases c3 : cfg.max_bytes ≤ 0
      · simp [c1, c2, c3]
      · by_cases c4 : cfg.backup_count < 0
        · simp [c1, c2, c3, c4]
        · exfalso
          have hv : validConfig cfg = true := by
            unfold validConfig
            simp only [Bool.and_eq_true, Bool.not_eq_true', decide_eq_true_eq]
            rw [Bool.not_eq_true] at c2
            exact ⟨⟨⟨c1, c2⟩, by omega⟩, by omega⟩
          rw [hv] at h
          exact absurd h (by simp)
  · rw [Bool.not_eq_true] at c1
    simp [c1]

theorem log_setup_ok_inv (cfg : Config) (sa so : Bool) (st st2 : LoggerState)
    (h : log_setup cfg sa so st = (st2, none)) :
    validConfig cfg = true ∧
      ∃ n tn, resolvedLevel cfg.level = Except.ok n ∧
        resolvedLevel (pyOr cfg.terminal_level cfg.level) = Except.ok tn ∧
        st2 = log_setup_attach cfg sa so (defaultedFilename cfg) n tn
          (warnedState cfg st) := by
  by_cases hv : validConfig cfg = true
  · refine ⟨hv, ?_⟩
    cases hn : resolvedLevel cfg.level with
    | error e =>
      rw [log_setup_level_raise cfg sa so st e hv hn] at h
      exact absurd (congrArg Prod.snd h) (by simp)
    | ok n =>
      cases htm : resolvedLevel (pyOr cfg.terminal_level cfg.level) with
      | error e =>
        rw [log_setup_terminal_raise cfg sa so st n e hv hn htm] at h
        exact absurd (congrArg Prod.snd h) (by simp)
      | ok tn =>
        rw [log_setup_ok cfg sa so st n tn hv hn htm] at h
        exact ⟨n, tn, rfl, rfl, (congrArg Prod.fst h).symm⟩
  · rw [Bool.not_eq_true] at hv
    obtain ⟨e, he⟩ := log_setup_invalid cfg sa so st hv
    rw [h] at he
    exact absurd he (by simp)

theorem setup_logging_filters_handlers (L : LoggerState)
    (k : Option (List String)) (c : Option (List (String × String))) :
    (setup_logging_filters L k c).handlers = L.handlers := by
  unfold setup_logging_filters
  dsimp only
  split <;> split <;> rfl

theorem setup_logging_filters_level (L : LoggerState)
    (k : Option (List String)) (c : Option (List (String × String))) :
    (setup_logging_filters L k c).level = L.level := by
  unfold setup_logging_filters
  dsimp only
  split <;> split <;> rfl

theorem setup_logging_filters_filters (L : LoggerState)
    (k : Option (List String)) (c : Option (List (String × String))) :
    (setup_logging_filters L k c).filters =
      L.filters ++
        (if truthyList k then [LogFilter.keyword (k.getD [])] else []) ++
        (if truthyList c then [LogFilter.context (c.getD [])] else []) := by
  unfold setup_logging_filters
  dsimp only
  split <;> split <;> simp

theorem attach_handlers_eq (cfg : Config) (sa so : Bool)
    (fn : Option String) (n tn : Nat) (st : LoggerState) :
    (log_setup_attach cfg sa so fn n tn st).handlers =
      setup_handlers cfg.output cfg.logs_path (fn.getD "")
        cfg.max_bytes cfg.backup_count tn
        (setup_formatter cfg.use_json cfg.use_color cfg.log_format) ++
      slackAttachment cfg sa so
        (setup_formatter cfg.use_json cfg.use_color cfg.log_format) := by
  unfold log_setup_attach slackAttachment
  rw [setup_logging_filters_handlers]
  dsimp only
  split
  · split <;> simp
  · simp

theorem attach_level (cfg : Config) (sa so : Bool)
    (fn : Option String) (n tn : Nat) (st : LoggerState) :
    (log_setup_attach cfg sa so fn n tn st).level = n := by
  unfold log_setup_attach
  rw [setup_logging_filters_level]
  dsimp only
  split
  · split <;> rfl
  · rfl

theorem attach_filters_eq (cfg : Config) (sa so : Bool)
    (fn : Option String) (n tn : Nat) (st : LoggerState) :
    (log_setup_attach cfg sa so fn n tn st).filters =
      st.filters ++
        (if truthyList cfg.keyword_filters then
          [LogFilter.keyword (cfg.keyword_filters.getD [])] else []) ++
        (if truthyList (if cfg.add_context then cfg.context_info else none) then
          [LogFilter.context
            ((if cfg.add_context then cfg.context_info else none).getD [])]
         else []) := by
  unfold log_setup_attach
  rw [setup_logging_filters_filters]
  dsimp only
  split
  · split <;> rfl
  · rfl

theorem setup_handlers_mem (o p f : String) (mb bc : Int) (lv : Nat)
    (fm : Formatter) :
    ∀ hd ∈ setup_handlers o p f mb bc lv fm,
      hd.level = lv ∧ hd.isSlack = false ∧ hd.formatter = some fm := by
  intro hd hmem
  unfold setup_handlers at hmem
  dsimp only at hmem
  split at hmem <;> split at hmem <;>
    simp only [List.nil_append, List.mem_append, List.mem_singleton,
      List.not_mem_nil, or_false, false_or] at hmem
  · rcases hmem with h | h <;> subst h <;> exact ⟨rfl, rfl, rfl⟩
  · subst hmem
    exact ⟨rfl, rfl, rfl⟩
  · subst hmem
    exact ⟨rfl, rfl, rfl⟩

theorem setup_slack_handler_ok (creds : Option (List String)) (so : Bool)
    (h : Handler) (hok : setup_slack_handler creds so = Except.ok h) :
    h.level = INFO ∧ h.isSlack = true ∧ h.formatter = none := by
  unfold setup_slack_handler at hok
  cases creds with
  | none => exact absurd hok (by simp)
  | some l =>
    dsimp only at hok
    split at hok
    · exact absurd hok (by simp)
    · split at hok
      · injection hok with hh
        subst hh
        exact ⟨rfl, rfl, rfl⟩
      · exact absurd hok (by simp)

theorem slackAttachment_mem (cfg : Config) (sa so : Bool) (fm : Formatter) :
    ∀ hd ∈ slackAttachment cfg sa so fm,
      hd.isSlack = true ∧ hd.level = INFO := by
  intro hd hmem
  unfold slackAttachment at hmem
  split at hmem
  · split at hmem
    case h_1 hh heq =>
      simp only [List.mem_singleton] at hmem
      subst hmem
      obtain ⟨hl, hs, _⟩ := setup_slack_handler_ok cfg.slack_credentials so hh heq
      refine ⟨?_, hl⟩
      unfold Handler.isSlack at hs ⊢
      dsimp only
      exact hs
    case h_2 => exact absurd hmem (by simp)
  · exact absurd hmem (by simp)

theorem isSlack_kinds (hd : Handler) (h : hd.isSlack = true) :
    hd.isStream = false ∧ hd.isFile = false := by
  rcases hk : hd.kind with _ | ⟨p, mb, bc⟩ | ⟨tk, ch⟩
  · simp [Handler.isSlack, hk] at h
  · simp [Handler.isSlack, hk] at h
  · exact ⟨by simp [Handler.isStream, hk], by simp [Handler.isFile, hk]⟩

theorem countStream_append (a b : List Handler) :
    countStream (a ++ b) = countStream a + countStream b := by
  simp [countStream, List.filter_append]

theorem countFile_append (a b : List Handler) :
    countFile (a ++ b) = countFile a + countFile b := by
  simp [countFile, List.filter_append]

theorem slackAttachment_counts (cfg : Config) (sa so : Bool) (fm : Formatter) :
    countStream (slackAttachment cfg sa so fm) = 0 ∧
      countFile (slackAttachment cfg sa so fm) = 0 := by
  have hmem := slackAttachment_mem cfg sa so fm
  constructor
  · unfold countStream
    rw [List.length_eq_zero, List.filter_eq_nil_iff]
    intro hd hm
    have := (isSlack_kinds hd (hmem hd hm).1).1
    simp [this]
  · unfold countFile
    rw [List.length_eq_zero, List.filter_eq_nil_iff]
    intro hd hm
    have := (isSlack_kinds hd (hmem hd hm).1).2
    simp [this]

theorem setup_handlers_counts_terminal (p f : String) (mb bc : Int)
    (lv : Nat) (fm : Formatter) :
    countStream (setup_handlers "terminal" p f mb bc lv fm) = 1 ∧
      countFile (setup_handlers "terminal" p f mb bc lv fm) = 0 := by
  unfold setup_handlers
  rw [show (("terminal" == "terminal" || "terminal" == "both") : Bool) = true from by decide,
      show (("terminal" == "file" || "terminal" == "both") : Bool) = false from by decide]
  simp [countStream, countFile, Handler.isStream, Handler.isFile]

theorem setup_handlers_counts_file (p f : String) (mb bc : Int)
    (lv : Nat) (fm : Formatter) :
    countStream (setup_handlers "file" p f mb bc lv fm) = 0 ∧
      countFile (setup_handlers "file" p f mb bc lv fm) = 1 := by
  unfold setup_handlers
  rw [show (("file" == "terminal" || "file" == "both") : Bool) = false from by decide,
      show (("file" == "file" || "file" == "both") : Bool) = true from by decide]
  simp [countStream, countFile, Handler.isStream, Handler.isFile]

theorem setup_handlers_counts_both (p f : String) (mb bc : Int)
    (lv : Nat) (fm : Formatter) :
    countStream (setup_handlers "both" p f mb bc lv fm) = 1 ∧
      countFile (setup_handlers "both" p f mb bc lv fm) = 1 := by
  unfold setup_handlers
  rw [show (("both" == "terminal" || "both" == "both") : Bool) = true from by decide,
      show (("both" == "file" || "both" == "both") : Bool) = true from by decide]
  simp [countStream, countFile, Handler.isStream, Handler.isFile]

theorem dispatchFuel_single_skip (send : LogRecord → Option String)
    (root : List Handler) (lvl fuel : Nat) (hd : Handler) (r : LogRecord)
    (hr : r.levelno < hd.level) :
    dispatchFuel send root lvl fuel [hd] r = ([EmitResult.skipped], r) := by
  cases fuel <;> simp [dispatchFuel, dispatchGo, hr]

/-- The root handler set of the C6 scenario: the Slack notification sink
followed by the console sink. -/
def slackC6 : Handler :=
  { kind := HandlerKind.slack "tok" "chan", level := 20,
    formatter := some (Formatter.plain none) }

/-- The console sink of the C6 scenario. -/
def streamC6 : Handler :=
  { kind := HandlerKind.stream, level := 10,
    formatter := some (Formatter.plain none) }

/-- The root logger's handler list in the C6 scenario. -/
def rootC6 : List Handler := [slackC6, streamC6]

/-- An INFO record dispatched in the C6 scenario. -/
def rHiC6 : LogRecord :=
  { name := "root", levelno := 20, levelname := "INFO", msg := "hi",
    filename := "a.py", lineno := 1, asctime := "T", extra := [] }

/-- A persistently failing Slack client: every `chat_postMessage` raises
`SlackApiError(channel_not_found)`. -/
def sendFailC6 : LogRecord → Option String := fun _ => some "channel_not_found"

/-- A transiently failing Slack client: the post of the original record
fails, the post of the error report succeeds. -/
def sendOnceC6 : LogRecord → Option String :=
  fun rec => if rec.msg == "hi" then some "channel_not_found" else none

theorem persistent_slack_failure_raises :
    ∀ (fuel : Nat) (r : LogRecord), 20 ≤ r.levelno →
      (dispatchFuel sendFailC6 rootC6 30 fuel rootC6 r).1 =
        [EmitResult.raised "RecursionError: maximum recursion depth exceeded"] := by
  intro fuel
  induction fuel with
  | zero =>
    intro r hr
    simp [dispatchFuel, dispatchGo, «SlackHandler.emit», sendFailC6, rootC6,
      slackC6, findRaised, Nat.not_lt.2 hr]
  | succ fuel ih =>
    intro r hr
    have hE : ∀ m : String,
        (dispatchFuel sendFailC6 rootC6 30 fuel rootC6 (errorRecord m)).1 =
          [EmitResult.raised "RecursionError: maximum recursion depth exceeded"] :=
      fun m => ih (errorRecord m) (by simp [errorRecord])
    simp only [sendFailC6, rootC6, slackC6, streamC6] at hE
    simp [dispatchFuel, dispatchGo, «SlackHandler.emit», sendFailC6, rootC6,
      slackC6, streamC6, findRaised, Nat.not_lt.2 hr, hE]

/-- The empty root logger state used in the concrete witnesses below. -/
def stEmpty : LoggerState := { level := 30, handlers := [], filters := [] }

/-- Claim C1: whenever `log_setup` returns without error, the attached
sink set matches the output mode exactly: terminal gives exactly one
console stream sink and no rotating file sink, file gives exactly one
rotating file sink and no console sink, both gives exactly one of each;
the optional Slack notification sink is not counted. -/
theorem c1_sink_set_matches_output_mode
    (cfg : Config) (sa so : Bool) (st st2 : LoggerState)
    (h : log_setup cfg sa so st = (st2, none)) :
    (cfg.output = "terminal" →
       countStream st2.handlers = 1 ∧ countFile st2.handlers = 0) ∧
    (cfg.output = "file" →
       countStream st2.handlers = 0 ∧ countFile st2.handlers = 1) ∧
    (cfg.output = "both" →
       countStream st2.handlers = 1 ∧ countFile st2.handlers = 1) := by
  obtain ⟨hv, n, tn, hn, htm, rfl⟩ := log_setup_ok_inv cfg sa so st st2 h
  have hh := attach_handlers_eq cfg sa so (defaultedFilename cfg) n tn
    (warnedState cfg st)
  obtain ⟨hs0, hf0⟩ := slackAttachment_counts cfg sa so
    (setup_formatter cfg.use_json cfg.use_color cfg.log_format)
  refine ⟨?_, ?_, ?_⟩ <;> intro ho <;>
    rw [hh, countStream_append, countFile_append, hs0, hf0, ho]
  · obtain ⟨a, b⟩ := setup_handlers_counts_terminal cfg.logs_path
      ((defaultedFilename cfg).getD "") cfg.max_bytes cfg.backup_count tn
      (setup_formatter cfg.use_json cfg.use_color cfg.log_format)
    omega
  · obtain ⟨a, b⟩ := setup_handlers_counts_file cfg.logs_path
      ((defaultedFilename cfg).getD "") cfg.max_bytes cfg.backup_count tn
      (setup_formatter cfg.use_json cfg.use_color cfg.log_format)
    omega
  · obtain ⟨a, b⟩ := setup_handlers_counts_both cfg.logs_path
      ((defaultedFilename cfg).getD "") cfg.max_bytes cfg.backup_count tn
      (setup_formatter cfg.use_json cfg.use_color cfg.log_format)
    omega

theorem c1_sink_witness :
    countStream (log_setup { output := "terminal" } false false stEmpty).1.handlers = 1 ∧
    countFile (log_setup { output := "terminal" } false false stEmpty).1.handlers = 0 :=
  (c1_sink_set_matches_output_mode { output := "terminal" } false false stEmpty
    (log_setup { output := "terminal" } false false stEmpty).1 (by decide)).1 rfl

/-- Claim C2: formatter selection is strict and total with precedence
JSON, then color, then plain: with `use_json` the result is the
fixed-schema JSON formatter whatever `use_color` and `log_format` are
(the schema string carries the six directives time, name, level,
message, filename, line); otherwise `use_color` gives the colorizing
formatter over `log_format`; otherwise the plain formatter over
`log_format`; the selector is a total function, raising nothing. -/
theorem c2_formatter_selection_strict_total :
    (∀ (c : Bool) (f : Option String) (c2 : Bool) (f2 : Option String),
        setup_formatter true c f = setup_formatter true c2 f2) ∧
    (∀ (c : Bool) (f : Option String),
        setup_formatter true c f = Formatter.plain (some DEFAULT_JSON_FORMAT)) ∧
    (pyIn "%(asctime)s" DEFAULT_JSON_FORMAT = true ∧
      pyIn "%(name)s" DEFAULT_JSON_FORMAT = true ∧
      pyIn "%(levelname)s" DEFAULT_JSON_FORMAT = true ∧
      pyIn "%(message)s" DEFAULT_JSON_FORMAT = true ∧
      pyIn "%(filename)s" DEFAULT_JSON_FORMAT = true ∧
      pyIn "%(lineno)d" DEFAULT_JSON_FORMAT = true) ∧
    (∀ f : Option String, setup_formatter false true f = Formatter.colored f) ∧
    (∀ f : Option String, setup_formatter false false f = Formatter.plain f) :=
  ⟨fun _ _ _ _ => rfl, fun _ _ => rfl, by decide, fun _ => rfl, fun _ => rfl⟩

/-- The configuration exhibiting claim C3's divergence: a file level of
WARNING next to a terminal level of DEBUG. -/
def cfgC3 : Config :=
  { level := "ERROR", output := "both", terminal_level := some "DEBUG",
    file_level := some "WARNING", log_filename := some "t.log" }

/-- Claim C3 fails on the code: `log_setup` resolves `file_level` (here
to WARNING = 30) but never passes it on — `setup_handlers` receives only
the resolved terminal level, so the rotating file sink ends up with
threshold DEBUG = 10, not WARNING. -/
theorem c3_file_level_ignored :
    (log_setup cfgC3 false false stEmpty).2 = none ∧
    List.filter Handler.isFile
        (log_setup cfgC3 false false stEmpty).1.handlers =
      [{ kind := HandlerKind.rotatingFile "logs/t.log" 1048576 3,
         level := DEBUG, formatter := some (Formatter.colored none) }] ∧
    getattrLevel (pyOr cfgC3.file_level cfgC3.level) ERROR = WARNING ∧
    DEBUG ≠ WARNING := by decide

/-- Claim C4, as stated, fails at output=both, log_filename=None,
max_bytes=0 on a handler-less root logger: the filename-default branch
runs the module-level `logging.warning`, whose `basicConfig` attaches the
default console handler before the max_bytes error is raised — so a sink
was attached and the global state was changed before the error. -/
theorem c4_counterexample :
    (log_setup { output := "both", max_bytes := 0 } false false stEmpty).2 =
      some (PyError.valueError "max_bytes must be a positive integer.") ∧
    (log_setup { output := "both", max_bytes := 0 } false false stEmpty).1 ≠
      stEmpty ∧
    (log_setup { output := "both", max_bytes := 0 } false false
        stEmpty).1.handlers = [basicConfigHandler] := by decide

/-- Claim C4, amended: every configuration failing validation makes
`log_setup` raise a configuration error; the global severity threshold
and installed filters are untouched and no configured sink is attached —
an invalid output mode or missing notification credentials leave the
logger state entirely unchanged, while the maxBytes/backupCount failures
leave it unchanged except that, when file output was requested without a
filename, the default-filename warning may first have attached the
backbone's basicConfig console handler to a handler-less root logger. -/
theorem c4_validation_failure_aborts_before_configured_sinks
    (cfg : Config) (sa so : Bool) (st : LoggerState)
    (h : (cfg.output ≠ "terminal" ∧ cfg.output ≠ "file" ∧ cfg.output ≠ "both") ∨
         (cfg.slack_notify = true ∧ cfg.slack_credentials = none) ∨
         cfg.max_bytes ≤ 0 ∨ cfg.backup_count < 0) :
    (∃ e, (log_setup cfg sa so st).2 = some e) ∧
    (log_setup cfg sa so st).1.level = st.level ∧
    (log_setup cfg sa so st).1.filters = st.filters ∧
    ((cfg.output ≠ "terminal" ∧ cfg.output ≠ "file" ∧ cfg.output ≠ "both") ∨
        (cfg.slack_notify = true ∧ cfg.slack_credentials = none) →
      (log_setup cfg sa so st).1 = st) ∧
    ((log_setup cfg sa so st).1 = st ∨
      (log_setup cfg sa so st).1 = { st with handlers := [basicConfigHandler] }) := by
  by_cases c1 : (cfg.output == "terminal" || cfg.output == "file" || cfg.output == "both") = true
  case neg =>
    rw [Bool.not_eq_true] at c1
    have heq : log_setup cfg sa so st =
        (st, some (PyError.valueError ("Invalid output value: " ++ cfg.output ++
          ". Must be terminal, file, or both."))) := by
      unfold log_setup
      simp [c1]
    rw [heq]
    exact ⟨⟨_, rfl⟩, rfl, rfl, fun _ => rfl, Or.inl rfl⟩
  case pos =>
  by_cases c2 : (cfg.slack_notify && cfg.slack_credentials.isNone) = true
  case pos =>
    have heq : log_setup cfg sa so st =
        (st, some (PyError.valueError
          "Slack notifications are enabled, but no Slack credentials were provided.")) := by
      unfold log_setup
      simp [c1, c2]
    rw [heq]
    exact ⟨⟨_, rfl⟩, rfl, rfl, fun _ => rfl, Or.inl rfl⟩
  case neg =>
  have hfirstTwo :
      ¬ ((cfg.output ≠ "terminal" ∧ cfg.output ≠ "file" ∧ cfg.output ≠ "both") ∨
        (cfg.slack_notify = true ∧ cfg.slack_credentials = none)) := by
    rintro (⟨h1, h2, h3⟩ | ⟨h1, h2⟩)
    · simp only [Bool.or_eq_true, beq_iff_eq] at c1
      rcases c1 with (ho | ho) | ho
      · exact h1 ho
      · exact h2 ho
      · exact h3 ho
    · apply c2
      rw [h1, h2]
      rfl
  by_cases c3 : cfg.max_bytes ≤ 0
  case pos =>
    have heq : log_setup cfg sa so st =
        (warnedState cfg st,
          some (PyError.valueError "max_bytes must be a positive integer.")) := by
      unfold log_setup warnedState
      simp [c1, c2, c3]
    rw [heq]
    exact ⟨⟨_, rfl⟩, warnedState_level cfg st, warnedState_filters cfg st,
      fun hft => absurd hft hfirstTwo, warnedState_cases cfg st⟩
  case neg =>
  by_cases c4 : cfg.backup_count < 0
  case pos =>
    have heq : log_setup cfg sa so st =
        (warnedState cfg st,
          some (PyError.valueError "backup_count must be a non-negative integer.")) := by
      unfold log_setup warnedState
      simp [c1, c2, c3, c4]
    rw [heq]
    exact ⟨⟨_, rfl⟩, warnedState_level cfg st, warnedState_filters cfg st,
      fun hft => absurd hft hfirstTwo, warnedState_cases cfg st⟩
  case neg =>
  exfalso
  rcases h with hft | hft | h1 | h1
  · exact hfirstTwo (Or.inl hft)
  · exact hfirstTwo (Or.inr hft)
  · exact c3 h1
  · exact c4 h1

theorem c4_witness :
    (∃ e, (log_setup { output := "nope" } false false stEmpty).2 = some e) ∧
      (log_setup { output := "nope" } false false stEmpty).1 = stEmpty :=
  ⟨(c4_validation_failure_aborts_before_configured_sinks { output := "nope" }
      false false stEmpty (Or.inl (by decide))).1,
   (c4_validation_failure_aborts_before_configured_sinks { output := "nope" }
      false false stEmpty (Or.inl (by decide))).2.2.2.1 (Or.inl (by decide))⟩

/-- Claim C5: repeating `log_setup` with the same configuration is
idempotent on the attached sink set: the second call also succeeds and
leaves exactly the same handler list (hence the same number of sinks) as
the first, because the handlers are cleared before attaching. -/
theorem c5_repeat_setup_idempotent_on_sinks
    (cfg : Config) (sa so : Bool) (st st1 : LoggerState)
    (h1 : log_setup cfg sa so st = (st1, none)) :
    ∃ st2, log_setup cfg sa so st1 = (st2, none) ∧
      st2.handlers = st1.handlers ∧
      st2.handlers.length = st1.handlers.length := by
  obtain ⟨hv, n, tn, hn, htm, rfl⟩ := log_setup_ok_inv cfg sa so st st1 h1
  refine ⟨_, log_setup_ok cfg sa so _ n tn hv hn htm, ?_, ?_⟩
  · rw [attach_handlers_eq, attach_handlers_eq]
  · rw [attach_handlers_eq, attach_handlers_eq]

theorem c5_witness :
    ∃ st2, log_setup { output := "both" } false false
        (log_setup { output := "both" } false false stEmpty).1 = (st2, none) ∧
      st2.handlers = (log_setup { output := "both" } false false stEmpty).1.handlers ∧
      st2.handlers.length =
        (log_setup { output := "both" } false false stEmpty).1.handlers.length :=
  c5_repeat_setup_idempotent_on_sinks { output := "both" } false false stEmpty
    (log_setup { output := "both" } false false stEmpty).1 (by decide)

/-- Claim C6 fails on the code: `SlackHandler.emit` catches the
`SlackApiError`, but its report — the module-level `logging.error` — is
dispatched back through the root logger, whose handlers include the
Slack sink itself. Under a persistent send failure the report recurses
for every recursion budget until the interpreter's RecursionError, which
`except SlackApiError` does not catch, escapes `emit` and aborts the
loop before the console sink receives the record. Only when the failure
is transient (the report's own post succeeds) is the failure caught,
logged, and the console sink still served. -/
theorem c6_slack_failure_report_recurses :
    (∀ fuel : Nat,
        (dispatchFuel sendFailC6 rootC6 30 fuel rootC6 rHiC6).1 =
          [EmitResult.raised "RecursionError: maximum recursion depth exceeded"]) ∧
    (callHandlers rootC6 (some "channel_not_found") rHiC6).1 =
      [EmitResult.raised "RecursionError: maximum recursion depth exceeded"] ∧
    (dispatchFuel sendOnceC6 rootC6 30 5 rootC6 rHiC6).1 =
      [EmitResult.sendFailedLogged "Failed to send log to Slack: channel_not_found",
       EmitResult.emitted "hi"] := by
  refine ⟨fun fuel => persistent_slack_failure_raises fuel rHiC6 (by decide),
    ?_, by decide⟩
  show (dispatchFuel (fun _ => some "channel_not_found") rootC6 WARNING
      recursionLimit rootC6 rHiC6).1 = _
  exact persistent_slack_failure_raises recursionLimit rHiC6 (by decide)

/-- Claim C7: every Slack notification sink a successful `log_setup`
attaches has the hard-coded threshold INFO = 20, whatever the configured
global level was, and a record below INFO is skipped by it — never sent
to the external service. -/
theorem c7_slack_hard_coded_info_floor
    (cfg : Config) (sa so : Bool) (st st2 : LoggerState)
    (h : log_setup cfg sa so st = (st2, none)) :
    ∀ hd ∈ st2.handlers, hd.isSlack = true →
      hd.level = INFO ∧
      ∀ (r : LogRecord) (s : Option String),
        r.levelno < INFO → (callHandlers [hd] s r).1 = [EmitResult.skipped] := by
  obtain ⟨hv, n, tn, hn, htm, rfl⟩ := log_setup_ok_inv cfg sa so st st2 h
  intro hd hmem hslack
  rw [attach_handlers_eq] at hmem
  rcases List.mem_append.1 hmem with hm | hm
  · have hns := (setup_handlers_mem _ _ _ _ _ _ _ hd hm).2.1
    rw [hslack] at hns
    cases hns
  · have hlv := (slackAttachment_mem _ _ _ _ hd hm).2
    refine ⟨hlv, ?_⟩
    intro r s hr
    have hlt : r.levelno < hd.level := by
      rw [hlv]
      exact hr
    unfold callHandlers
    rw [dispatchFuel_single_skip _ _ _ _ _ _ hlt]

/-- The configuration, result state, slack handler and low record used
by claim C7's witness. -/
def cfgW7 : Config :=
  { output := "terminal", slack_notify := true,
    slack_credentials := some ["tok", "chan"] }

/-- The logger state cfgW7 produces. -/
def stW7 : LoggerState := (log_setup cfgW7 true true stEmpty).1

/-- The Slack handler cfgW7 attaches. -/
def hdW7 : Handler :=
  { kind := HandlerKind.slack "tok" "chan", level := 20,
    formatter := some (Formatter.colored none) }

/-- A record below INFO. -/
def rW7 : LogRecord :=
  { name := "root", levelno := 10, levelname := "DEBUG", msg := "dbg",
    filename := "a.py", lineno := 1, asctime := "T", extra := [] }

theorem c7_witness :
    hdW7.level = INFO ∧
      (callHandlers [hdW7] none rW7).1 = [EmitResult.skipped] :=
  ⟨(c7_slack_hard_coded_info_floor cfgW7 true true stEmpty stW7
      (by decide) hdW7 (by decide) rfl).1,
   (c7_slack_hard_coded_info_floor cfgW7 true true stEmpty stW7
      (by decide) hdW7 (by decide) rfl).2 rW7 none (by decide)⟩

/-- Claim C8: with a non-empty keyword list configured, a successful
`log_setup` installs the keyword filter on the root logger, and that
filter keeps a record exactly when some configured keyword occurs as a
contiguous substring of the record's raw message — in particular a
record whose message contains no configured keyword is suppressed. -/
theorem c8_keyword_filter_keeps_iff_substring
    (cfg : Config) (sa so : Bool) (st st2 : LoggerState) (kws : List String)
    (h : log_setup cfg sa so st = (st2, none))
    (hk : cfg.keyword_filters = some kws) (hne : kws ≠ []) :
    LogFilter.keyword kws ∈ st2.filters ∧
    ∀ r : LogRecord,
      ((LogFilter.apply (LogFilter.keyword kws) r).1 = true ↔
        ∃ kw ∈ kws, IsSub kw.data r.msg.data) := by
  obtain ⟨hv, n, tn, hn, htm, rfl⟩ := log_setup_ok_inv cfg sa so st st2 h
  constructor
  · have ht : truthyList (some kws) = true := by
      cases kws with
      | nil => exact absurd rfl hne
      | cons a as => rfl
    rw [attach_filters_eq, hk]
    simp [ht]
  · intro r
    simp [LogFilter.apply, filter_keywords, List.any_eq_true, pyIn_iff]

/-- The configuration and record of claim C8's witness. -/
def cfgW8 : Config :=
  { output := "terminal", keyword_filters := some ["example"] }

/-- The logger state cfgW8 produces. -/
def stW8 : LoggerState := (log_setup cfgW8 false false stEmpty).1

/-- A record matching no configured keyword. -/
def rW8 : LogRecord :=
  { name := "root", levelno := 20, levelname := "INFO",
    msg := "no match here", filename := "a.py", lineno := 1,
    asctime := "T", extra := [] }

theorem c8_witness :
    LogFilter.keyword ["example"] ∈ stW8.filters ∧
      ((LogFilter.apply (LogFilter.keyword ["example"]) rW8).1 = true ↔
        ∃ kw ∈ ["example"], IsSub kw.data rW8.msg.data) :=
  ⟨(c8_keyword_filter_keeps_iff_substring cfgW8 false false stEmpty stW8
      ["example"] (by decide) rfl (by decide)).1,
   (c8_keyword_filter_keeps_iff_substring cfgW8 false false stEmpty stW8
      ["example"] (by decide) rfl (by decide)).2 rW8⟩

/-- The shared colored formatter, the two sinks and the record of claim
C9's concrete scenario. -/
def fmtC9 : Option String := some "%(levelname)s %(message)s"

/-- Console sink of the C9 scenario. -/
def shC9 : Handler :=
  { kind := HandlerKind.stream, level := 10,
    formatter := some (Formatter.colored fmtC9) }

/-- File sink of the C9 scenario, sharing the formatter. -/
def fhC9 : Handler :=
  { kind := HandlerKind.rotatingFile "logs/t.log" 1048576 3, level := 10,
    formatter := some (Formatter.colored fmtC9) }

/-- The record dispatched in the C9 scenario. -/
def rC9 : LogRecord :=
  { name := "root", levelno := 20, levelname := "INFO", msg := "hi",
    filename := "a.py", lineno := 1, asctime := "T", extra := [] }

/-- Claim C9: `ColoredFormatter.format` overwrites the record's severity
label in place with the color-wrapped label; formatting the same record a
second time therefore wraps the already-colored label again, and in the
shared-formatter console+file scenario the file sink's rendered line
contains terminal color escape codes. -/
theorem c9_colored_formatter_mutates_shared_record :
    (∀ (f : Option String) (r : LogRecord),
        ((«ColoredFormatter.format» f r).2).levelname = colorWrap r.levelname) ∧
    (∀ (f : Option String) (r : LogRecord),
        ((«ColoredFormatter.format» f
            ((«ColoredFormatter.format» f r).2)).2).levelname =
          colorWrap (colorWrap r.levelname)) ∧
    ((callHandlers [shC9, fhC9] none rC9).1 =
      [EmitResult.emitted "\x1b[94mINFO\x1b[0m hi",
       EmitResult.emitted "\x1b[0m\x1b[94mINFO\x1b[0m\x1b[0m hi"] ∧
     pyIn "\x1b[" "\x1b[0m\x1b[94mINFO\x1b[0m\x1b[0m hi" = true) :=
  ⟨fun _ _ => rfl, fun _ _ => rfl, by decide⟩

/-- Claim C10, as stated, fails: basic_format names no valid severity
(its uppercase is not in `_nameToLevel`), yet `log_setup` rejects it —
`getattr` finds the non-level module attribute `logging.BASIC_FORMAT`
and `setLevel` raises ValueError on its string value. -/
theorem c10_counterexample :
    nameToLevel (pyUpper "basic_format") = none ∧
    (log_setup { output := "terminal", level := "basic_format" } false false
        stEmpty).2 =
      some (PyError.valueError
        "Unknown level: %(levelname)s:%(name)s:%(message)s") := by decide

/-- Claim C10, amended: an ASCII level (or terminal level) string whose
uppercase names no attribute of the backbone logging module is never
rejected — `log_setup`, its four validated options passing, raises
nothing — and the corresponding threshold silently falls back to
ERROR = 40: the root level, and every console/file sink threshold.
Strings whose uppercase names a non-level module attribute (such as
basic_format) instead raise from `setLevel` (see the counterexample),
and non-ASCII strings are outside the uppercasing model. -/
theorem c10_unresolvable_ascii_level_falls_back_to_error
    (cfg : Config) (sa so : Bool) (st : LoggerState)
    (hv : validConfig cfg = true)
    (_hA1 : isAsciiStr cfg.level = true)
    (_hA2 : isAsciiStr (pyOr cfg.terminal_level cfg.level) = true)
    (h1 : loggingAttr (pyUpper cfg.level) = none)
    (h2 : loggingAttr (pyUpper (pyOr cfg.terminal_level cfg.level)) = none) :
    (log_setup cfg sa so st).2 = none ∧
    (log_setup cfg sa so st).1.level = ERROR ∧
    ∀ hd ∈ (log_setup cfg sa so st).1.handlers,
      hd.isSlack = false → hd.level = ERROR := by
  have hn : resolvedLevel cfg.level = Except.ok 40 := by
    unfold resolvedLevel getattrLogging
    rw [h1]
    rfl
  have htm : resolvedLevel (pyOr cfg.terminal_level cfg.level) = Except.ok 40 := by
    unfold resolvedLevel getattrLogging
    rw [h2]
    rfl
  rw [log_setup_ok cfg sa so st 40 40 hv hn htm]
  refine ⟨rfl, ?_, ?_⟩
  · show (log_setup_attach cfg sa so (defaultedFilename cfg) 40 40
        (warnedState cfg st)).level = ERROR
    exact attach_level cfg sa so (defaultedFilename cfg) 40 40 (warnedState cfg st)
  · intro hd hmem hns
    have hmem2 : hd ∈ (log_setup_attach cfg sa so (defaultedFilename cfg) 40 40
        (warnedState cfg st)).handlers := hmem
    rw [attach_handlers_eq] at hmem2
    rcases List.mem_append.1 hmem2 with hm | hm
    · exact (setup_handlers_mem _ _ _ _ _ _ _ hd hm).1
    · have hsl := (slackAttachment_mem _ _ _ _ hd hm).1
      rw [hns] at hsl
      cases hsl

/-- The configuration of claim C10's witness: an ASCII global level and
terminal level naming no logging-module attribute. -/
def cfgW10 : Config :=
  { output := "terminal", level := "VERBOSE", terminal_level := some "TRACE" }

theorem c10_witness :
    (log_setup cfgW10 false false stEmpty).2 = none ∧
      (log_setup cfgW10 false false stEmpty).1.level = ERROR :=
  ⟨(c10_unresolvable_ascii_level_falls_back_to_error cfgW10 false false stEmpty
      (by decide) (by decide) (by decide) (by decide) (by decide)).1,
   (c10_unresolvable_ascii_level_falls_back_to_error cfgW10 false false stEmpty
      (by decide) (by decide) (by decide) (by decide) (by decide)).2.1⟩

end QcmlLogging
